import Mathlib

/-!
Verification of the user CRUD service in `python_api/main.py`.

The service is modelled as pure state transformers over `DB`, the storage
state: a list of user rows plus the next storage-assigned id. The database
enforces uniqueness of `email` and `user` at commit time: a commit that
would violate a unique constraint fails and leaves the stored rows exactly
as they were (transactional atomicity); the handler for create maps that
failure to a 400 response, while the update handler has no guard, so a
constraint failure there surfaces as an unhandled 500.
-/

/-- Row of the `users` table (`UserDB` in `main.py`): integer primary key
`id` assigned by storage, plus four text columns; `email` and `user` carry
unique constraints. -/
structure UserDB where
  id : Nat
  name : String
  email : String
  user : String
  password : String
deriving DecidableEq

/-- Request body schema for create and update (`UserCreate` in `main.py`):
exactly the four mutable text fields, no `id`. -/
structure UserCreate where
  name : String
  email : String
  user : String
  password : String
deriving DecidableEq

/-- An HTTP error response as raised by `HTTPException(status_code, detail)`. -/
structure HTTPError where
  status : Nat
  detail : String
deriving DecidableEq

/-- Storage state: the stored rows in insertion order, and the next value of
the primary-key sequence. -/
structure DB where
  users : List UserDB
  nextId : Nat
deriving DecidableEq

/-- Whether inserting a row with payload `p` violates the unique constraint
on `email` or on `user` against the stored rows. -/
def conflictsWith (p : UserCreate) (u : UserDB) : Bool :=
  u.email == p.email || u.user == p.user

/-- Whether the storage layer rejects an insert of payload `p` into `db`. -/
def hasConflict (db : DB) (p : UserCreate) : Bool :=
  db.users.any (conflictsWith p)

/-- Handler `create_user` (`POST /users`): insert a row built from the four
payload fields with a storage-assigned id, commit; on a unique-constraint
violation the transaction is rolled back and a 400 with detail
"User or Email already exists" is raised; on success the response is 201
with the created row. -/
def create_user (p : UserCreate) (db : DB) : (Except HTTPError (Nat × UserDB)) × DB :=
  let new_user : UserDB := ⟨db.nextId, p.name, p.email, p.user, p.password⟩
  if hasConflict db p then
    (Except.error ⟨400, "User or Email already exists"⟩, db)
  else
    (Except.ok (201, new_user), ⟨db.users ++ [new_user], db.nextId + 1⟩)

/-- Handler `read_users` (`GET /users?skip=&limit=`): `select` over the table
with `offset skip` and `limit limit`, in storage order; reads do not change
the state. -/
def read_users (skip limit : Nat) (db : DB) : List UserDB × DB :=
  ((db.users.drop skip).take limit, db)

/-- Handler `read_user` (`GET /users/{user_id}`): first row whose `id`
matches, or a 404 with detail "User not found". -/
def read_user (user_id : Nat) (db : DB) : (Except HTTPError UserDB) × DB :=
  match db.users.find? (fun u => u.id == user_id) with
  | none => (Except.error ⟨404, "User not found"⟩, db)
  | some u => (Except.ok u, db)

/-- The row `u` with its four mutable fields overwritten from payload `p`,
as the update handler assigns them one by one; `id` is untouched. -/
def updatedRow (p : UserCreate) (u : UserDB) : UserDB :=
  { u with name := p.name, email := p.email, user := p.user, password := p.password }

/-- Whether committing an update of the row with key `user_id` to the fields
of `p` violates a unique constraint: some other stored row already holds the
new `email` or the new `user`. -/
def updateConflict (db : DB) (user_id : Nat) (p : UserCreate) : Bool :=
  db.users.any (fun u => u.id != user_id && (u.email == p.email || u.user == p.user))

/-- Handler `update_user` (`PUT /users/{user_id}`): select the row by id
(404 "User not found" if absent), overwrite all four mutable fields and
commit. The handler has no try/except: a unique-constraint violation at
commit propagates as an unhandled exception (500) and the transaction is
rolled back at session close, leaving the rows unchanged. -/
def update_user (user_id : Nat) (p : UserCreate) (db : DB) : (Except HTTPError UserDB) × DB :=
  match db.users.find? (fun u => u.id == user_id) with
  | none => (Except.error ⟨404, "User not found"⟩, db)
  | some u =>
    if updateConflict db user_id p then
      (Except.error ⟨500, "Internal Server Error"⟩, db)
    else
      (Except.ok (updatedRow p u),
       ⟨db.users.map (fun v => if v.id == user_id then updatedRow p v else v), db.nextId⟩)

/-- Handler `delete_user` (`DELETE /users/{user_id}`): select the row by id
(404 "User not found" if absent), delete that row and commit, answering
with the confirmation message. -/
def delete_user (user_id : Nat) (db : DB) : (Except HTTPError String) × DB :=
  match db.users.find? (fun u => u.id == user_id) with
  | none => (Except.error ⟨404, "User not found"⟩, db)
  | some _ =>
    (Except.ok "User deleted successfully",
     ⟨db.users.eraseP (fun u => u.id == user_id), db.nextId⟩)

/-- Well-formedness of a storage state: primary keys are pairwise distinct
and all below the next sequence value. Every state reachable from an empty
table through the handlers satisfies it. -/
def DB.WF (db : DB) : Prop :=
  (db.users.map (fun u => u.id)).Nodup ∧ ∀ u ∈ db.users, u.id < db.nextId

instance (db : DB) : Decidable db.WF := by
  unfold DB.WF; infer_instance

/-- Empty storage state, as after schema creation at startup. -/
def db0 : DB := ⟨[], 1⟩

/-- A concrete create payload. -/
def pAnn : UserCreate := ⟨"Ann", "a@x.com", "ann1", "p"⟩

/-- A payload whose `email` collides with `pAnn` but whose handle differs. -/
def pBea : UserCreate := ⟨"Bea", "a@x.com", "bea1", "q"⟩

/-- A payload colliding with nothing used elsewhere. -/
def pCy : UserCreate := ⟨"Cy", "c@x.com", "cy1", "r"⟩

/-- Storage state holding just the row created from `pAnn`. -/
def db1 : DB := (create_user pAnn db0).2

/-- Stored row with id 1, as created from `pAnn`. -/
def cAnn : UserDB := ⟨1, "Ann", "a@x.com", "ann1", "p"⟩

/-- Stored row with id 2. -/
def cBob : UserDB := ⟨2, "Bob", "b@x.com", "bob1", "q"⟩

/-- Storage state holding the rows `cAnn` and `cBob`. -/
def db2 : DB := ⟨[cAnn, cBob], 3⟩

/-- Update payload whose `email` already belongs to the other row `cAnn`. -/
def clashPayload : UserCreate := ⟨"Bob", "a@x.com", "bob1", "q"⟩

/-- Storage state after creating five users with fresh emails and handles
into the empty store. -/
def seedDB5 : DB :=
  ([⟨"n1", "e1", "u1", "p"⟩, ⟨"n2", "e2", "u2", "p"⟩, ⟨"n3", "e3", "u3", "p"⟩,
    ⟨"n4", "e4", "u4", "p"⟩, ⟨"n5", "e5", "u5", "p"⟩] : List UserCreate).foldl
    (fun db p => (create_user p db).2) db0

example : db1 = ⟨[⟨1, "Ann", "a@x.com", "ann1", "p"⟩], 2⟩ := rfl
example : seedDB5.users.length = 5 := rfl
example : hasConflict db1 pBea = true := rfl
example : (create_user pBea db1).1 = Except.error ⟨400, "User or Email already exists"⟩ := rfl

lemma create_user_conflict (db : DB) (p : UserCreate) (h : hasConflict db p = true) :
    create_user p db = (Except.error ⟨400, "User or Email already exists"⟩, db) := by
  simp [create_user, h]

lemma create_user_success (db : DB) (p : UserCreate) (h : hasConflict db p = false) :
    create_user p db =
      (Except.ok (201, ⟨db.nextId, p.name, p.email, p.user, p.password⟩),
       ⟨db.users ++ [⟨db.nextId, p.name, p.email, p.user, p.password⟩], db.nextId + 1⟩) := by
  simp [create_user, h]

lemma find?_append_of_forall_neg {α : Type} (q : α → Bool) (l₁ l₂ : List α)
    (h : ∀ x ∈ l₁, q x = false) : (l₁ ++ l₂).find? q = l₂.find? q := by
  induction l₁ with
  | nil => simp
  | cons a l ih =>
      rw [List.cons_append, List.find?_cons_of_neg]
      · exact ih (fun x hx => h x (List.mem_cons_of_mem a hx))
      · simp [h a (List.mem_cons_self a l)]

/-- C1: a Create whose email or user handle already exists fails with a 400
carrying "User or Email already exists", the insert is rolled back (the state
after the failing call equals the state before it), and across the two calls
(a successful first create, then the conflicting one) the stored row count
grows by exactly 1. -/
theorem create_conflict_spec (db : DB) (q1 q2 : UserCreate)
    (h1 : hasConflict db q1 = false)
    (h2 : hasConflict (create_user q1 db).2 q2 = true) :
    (create_user q2 (create_user q1 db).2).1 =
      Except.error ⟨400, "User or Email already exists"⟩ ∧
    (create_user q2 (create_user q1 db).2).2 = (create_user q1 db).2 ∧
    ((create_user q2 (create_user q1 db).2).2).users.length = db.users.length + 1 := by
  rw [create_user_conflict _ _ h2]
  refine ⟨rfl, rfl, ?_⟩
  rw [create_user_success _ _ h1]
  simp

/-- C1 witness at a concrete state: creating `pAnn` into the empty store and
then `pBea` (same email, fresh handle) yields the 400 conflict, an unchanged
state, and one single inserted row. -/
theorem create_conflict_spec_witness :
    (create_user pBea (create_user pAnn db0).2).1 =
      Except.error ⟨400, "User or Email already exists"⟩ ∧
    (create_user pBea (create_user pAnn db0).2).2 = (create_user pAnn db0).2 ∧
    ((create_user pBea (create_user pAnn db0).2).2).users.length = db0.users.length + 1 :=
  create_conflict_spec db0 pAnn pBea (by decide) (by decide)

/-- C2: a Create whose (email, user) pair collides with no stored row
succeeds with status 201 and a storage-assigned id, and a Get on that id
against the resulting state returns a user whose four fields are exactly the
payload's. -/
theorem create_then_get (db : DB) (p : UserCreate) (hwf : db.WF)
    (h : hasConflict db p = false) :
    ∃ u, (create_user p db).1 = Except.ok (201, u) ∧
      u.name = p.name ∧ u.email = p.email ∧ u.user = p.user ∧ u.password = p.password ∧
      (read_user u.id ((create_user p db).2)).1 = Except.ok u := by
  refine ⟨⟨db.nextId, p.name, p.email, p.user, p.password⟩, ?_, rfl, rfl, rfl, rfl, ?_⟩
  · simp [create_user, h]
  · have hsnd : (create_user p db).2 =
        ⟨db.users ++ [⟨db.nextId, p.name, p.email, p.user, p.password⟩], db.nextId + 1⟩ := by
      simp [create_user, h]
    have hfind : ((db.users ++ [(⟨db.nextId, p.name, p.email, p.user, p.password⟩ : UserDB)]).find?
        (fun u => u.id == db.nextId)) = some ⟨db.nextId, p.name, p.email, p.user, p.password⟩ := by
      rw [find?_append_of_forall_neg]
      · simp
      · intro x hx
        have hlt := hwf.2 x hx
        simp [Nat.ne_of_lt hlt]
    simp [read_user, hsnd, hfind]

/-- C2 witness: creating `pAnn` into the empty store succeeds and Get on the
assigned id reads the same four field values back. -/
theorem create_then_get_witness :
    ∃ u, (create_user pAnn db0).1 = Except.ok (201, u) ∧
      u.name = pAnn.name ∧ u.email = pAnn.email ∧ u.user = pAnn.user ∧
      u.password = pAnn.password ∧
      (read_user u.id ((create_user pAnn db0).2)).1 = Except.ok u :=
  create_then_get db0 pAnn (by decide) (by decide)

/-- C3: a failing write is all-or-nothing. Whenever Create answers with an
error the state is exactly the state before the call, and the same holds for
Update; no partial write survives a failed operation. -/
theorem write_failure_rollback (db : DB) (user_id : Nat) (p : UserCreate) :
    (∀ e, (create_user p db).1 = Except.error e → (create_user p db).2 = db) ∧
    (∀ e, (update_user user_id p db).1 = Except.error e → (update_user user_id p db).2 = db) := by
  constructor
  · intro e he
    cases hc : hasConflict db p
    · simp [create_user, hc] at he
    · simp [create_user, hc]
  · intro e he
    cases hf : db.users.find? (fun u => u.id == user_id) with
    | none => simp [update_user, hf]
    | some u =>
        cases hcu : updateConflict db user_id p
        · simp [update_user, hf, hcu] at he
        · simp [update_user, hf, hcu]

/-- C3 witness: the conflicting create against `db1` and an update of an
absent id both leave `db1` exactly as it was. -/
theorem write_failure_rollback_witness :
    (create_user pBea db1).2 = db1 ∧ (update_user 5 pBea db1).2 = db1 :=
  ⟨(write_failure_rollback db1 5 pBea).1 ⟨400, "User or Email already exists"⟩ rfl,
   (write_failure_rollback db1 5 pBea).2 ⟨404, "User not found"⟩ rfl⟩

/-- C5: Get(id) answers 404 with "User not found" exactly when no stored row
carries that id, and whenever it answers a user, that user is a stored row
whose id is the one asked for. -/
theorem read_user_spec (db : DB) (user_id : Nat) :
    ((read_user user_id db).1 = Except.error ⟨404, "User not found"⟩ ↔
      ∀ u ∈ db.users, u.id ≠ user_id) ∧
    ∀ u, (read_user user_id db).1 = Except.ok u → u ∈ db.users ∧ u.id = user_id := by
  constructor
  · cases hf : db.users.find? (fun u => u.id == user_id) with
    | none =>
        simp only [read_user, hf]
        constructor
        · intro _ u hu
          simpa using List.find?_eq_none.mp hf u hu
        · intro _
          trivial
    | some u =>
        have hmem := List.mem_of_find?_eq_some hf
        have hp := List.find?_some hf
        simp only [read_user, hf]
        constructor
        · intro h
          exact absurd h (by simp)
        · intro hall
          exact absurd (by simpa using hp) (hall u hmem)
  · intro u hu
    cases hf : db.users.find? (fun v => v.id == user_id) with
    | none => simp [read_user, hf] at hu
    | some w =>
        simp only [read_user, hf, Except.ok.injEq] at hu
        subst hu
        exact ⟨List.mem_of_find?_eq_some hf, by simpa using List.find?_some hf⟩

/-- C5 witness: in `db1` the row with id 1 exists, and Get(1) returning it
certifies membership and the id. -/
theorem read_user_spec_witness :
    (⟨1, "Ann", "a@x.com", "ann1", "p"⟩ : UserDB) ∈ db1.users ∧
    (⟨1, "Ann", "a@x.com", "ann1", "p"⟩ : UserDB).id = 1 :=
  (read_user_spec db1 1).2 ⟨1, "Ann", "a@x.com", "ann1", "p"⟩ rfl

/-- C9: the create payload carries no id field (`UserCreate` has exactly the
four text fields), and the id of a created row is always the
storage-assigned `nextId`, never taken from the payload: on any successful
create the row equals the payload's four fields paired with `db.nextId`. -/
theorem create_assigns_id (db : DB) (p : UserCreate) (s : Nat) (u : UserDB)
    (hok : (create_user p db).1 = Except.ok (s, u)) :
    s = 201 ∧ u = ⟨db.nextId, p.name, p.email, p.user, p.password⟩ ∧ u.id = db.nextId := by
  cases hc : hasConflict db p
  · simp only [create_user, hc, Bool.false_eq_true, if_false, Except.ok.injEq,
      Prod.mk.injEq] at hok
    obtain ⟨h1, h2⟩ := hok
    subst h1
    exact ⟨rfl, h2.symm, by rw [← h2]⟩
  · simp [create_user, hc] at hok

/-- C9 witness: the concrete create of `pAnn` into the empty store assigns
id 1, the store's next sequence value. -/
theorem create_assigns_id_witness :
    (201 : Nat) = 201 ∧
    (⟨1, "Ann", "a@x.com", "ann1", "p"⟩ : UserDB) =
      ⟨db0.nextId, pAnn.name, pAnn.email, pAnn.user, pAnn.password⟩ ∧
    (⟨1, "Ann", "a@x.com", "ann1", "p"⟩ : UserDB).id = db0.nextId :=
  create_assigns_id db0 pAnn 201 ⟨1, "Ann", "a@x.com", "ann1", "p"⟩ rfl

/-- C10: the two read operations never modify the stored set of users: the
state after List or Get equals the state before, for every starting state
and arguments. -/
theorem reads_preserve_state (db : DB) (skip limit user_id : Nat) :
    (read_users skip limit db).2 = db ∧ (read_user user_id db).2 = db := by
  refine ⟨rfl, ?_⟩
  cases hf : db.users.find? (fun u => u.id == user_id) <;> simp [read_user, hf]

/-- C10 witness: concrete List and Get calls against `db1` leave it intact. -/
theorem reads_preserve_state_witness :
    (read_users 0 2 db1).2 = db1 ∧ (read_user 1 db1).2 = db1 :=
  reads_preserve_state db1 0 2 1

/-- C7: List(skip, limit) is exactly the stored rows in storage order with
the first `skip` dropped and at most `limit` kept, so its length is
`min limit (count - skip)` and never exceeds `limit`; in particular, after
creating 5 users, List(0, 2) has exactly 2 rows and List(4, 2) exactly 1. -/
theorem read_users_spec (skip limit : Nat) (db : DB) :
    (read_users skip limit db).1 = (db.users.drop skip).take limit ∧
    (read_users skip limit db).1.length = min limit (db.users.length - skip) ∧
    (read_users skip limit db).1.length ≤ limit ∧
    seedDB5.users.length = 5 ∧
    (read_users 0 2 seedDB5).1.length = 2 ∧
    (read_users 4 2 seedDB5).1.length = 1 := by
  refine ⟨rfl, ?_, ?_, rfl, rfl, rfl⟩
  · simp [read_users, List.length_take, List.length_drop]
  · simp only [read_users]
    rw [List.length_take]
    exact min_le_left _ _

/-- C7 witness: the page shape at a concrete call against `seedDB5`. -/
theorem read_users_spec_witness :
    (read_users 1 3 seedDB5).1 = (seedDB5.users.drop 1).take 3 ∧
    (read_users 1 3 seedDB5).1.length = min 3 (seedDB5.users.length - 1) ∧
    (read_users 1 3 seedDB5).1.length ≤ 3 ∧
    seedDB5.users.length = 5 ∧
    (read_users 0 2 seedDB5).1.length = 2 ∧
    (read_users 4 2 seedDB5).1.length = 1 :=
  read_users_spec 1 3 seedDB5

/-- C4 counterexample: the claim quantifies over every replacement payload,
but a payload whose `email` belongs to another stored row makes the commit
violate the unique constraint: at id 2 of `db2` with `clashPayload`, Update
answers an error (unhandled 500, not a success) and the subsequent Get
still reads the old row, whose `email` differs from the payload's. -/
theorem update_claim_counterexample :
    (update_user 2 clashPayload db2).1 = Except.error ⟨500, "Internal Server Error"⟩ ∧
    (read_user 2 ((update_user 2 clashPayload db2).2)).1 = Except.ok cBob ∧
    cBob.email ≠ clashPayload.email :=
  ⟨rfl, rfl, by decide⟩

lemma find?_map_updatedRow (l : List UserDB) (k : Nat) (p : UserCreate) (u : UserDB)
    (h : l.find? (fun x => x.id == k) = some u) :
    (l.map (fun x => if x.id == k then updatedRow p x else x)).find?
      (fun x => x.id == k) = some (updatedRow p u) := by
  induction l with
  | nil => simp at h
  | cons a l ih =>
      rw [List.map_cons]
      by_cases ha : (a.id == k) = true
      · rw [@List.find?_cons_of_pos _ (fun x => x.id == k) a l ha] at h
        obtain rfl : a = u := Option.some.inj h
        have hm : ((if (a.id == k) = true then updatedRow p a else a).id == k) = true := by
          rw [if_pos ha]
          simpa [updatedRow] using ha
        rw [@List.find?_cons_of_pos UserDB (fun x => x.id == k) _ _ hm]
        rw [if_pos ha]
      · rw [@List.find?_cons_of_neg _ (fun x => x.id == k) a l ha] at h
        have hm : ¬ ((if (a.id == k) = true then updatedRow p a else a).id == k) = true := by
          rw [if_neg ha]
          exact ha
        rw [@List.find?_cons_of_neg UserDB (fun x => x.id == k) _ _ hm]
        exact ih h

/-- C4 (amended): for every existing id and every replacement payload whose
email and user handle are not already held by a different stored row, Update
replaces all four mutable fields and a subsequent Get(id) returns the new
values with the id unchanged; Update on a non-existent id fails with 404
"User not found" and leaves the state untouched. -/
theorem update_then_get (db : DB) (user_id : Nat) (p : UserCreate)
    (hc : updateConflict db user_id p = false) :
    (∀ u, (read_user user_id db).1 = Except.ok u →
       ∃ v, (update_user user_id p db).1 = Except.ok v ∧ v.id = user_id ∧
         v.name = p.name ∧ v.email = p.email ∧ v.user = p.user ∧ v.password = p.password ∧
         (read_user user_id ((update_user user_id p db).2)).1 = Except.ok v) ∧
    ((read_user user_id db).1 = Except.error ⟨404, "User not found"⟩ →
       update_user user_id p db = (Except.error ⟨404, "User not found"⟩, db)) := by
  constructor
  · intro u hu
    have hf : db.users.find? (fun x => x.id == user_id) = some u := by
      cases hfind : db.users.find? (fun x => x.id == user_id) with
      | none => simp [read_user, hfind] at hu
      | some w =>
          simp only [read_user, hfind, Except.ok.injEq] at hu
          rw [hu]
    have hid : u.id = user_id := by simpa using List.find?_some hf
    refine ⟨updatedRow p u, ?_, ?_, rfl, rfl, rfl, rfl, ?_⟩
    · simp [update_user, hf, hc]
    · simp [updatedRow, hid]
    · have hsnd : (update_user user_id p db).2 =
          ⟨db.users.map (fun v => if v.id == user_id then updatedRow p v else v), db.nextId⟩ := by
        simp [update_user, hf, hc]
      rw [hsnd]
      have hm := find?_map_updatedRow db.users user_id p u hf
      simp only [read_user]
      rw [hm]
  · intro h404
    have hf : db.users.find? (fun x => x.id == user_id) = none := by
      cases hfind : db.users.find? (fun x => x.id == user_id) with
      | none => rfl
      | some w => simp [read_user, hfind] at h404
    simp [update_user, hf]

/-- C4 witness: updating the existing id 1 of `db1` with the fresh payload
`pCy` succeeds and Get(1) reads back all four new field values. -/
theorem update_then_get_witness :
    ∃ v, (update_user 1 pCy db1).1 = Except.ok v ∧ v.id = 1 ∧
      v.name = pCy.name ∧ v.email = pCy.email ∧ v.user = pCy.user ∧
      v.password = pCy.password ∧
      (read_user 1 ((update_user 1 pCy db1).2)).1 = Except.ok v :=
  (update_then_get db1 1 pCy (by decide)).1 ⟨1, "Ann", "a@x.com", "ann1", "p"⟩ rfl

lemma find?_eraseP_of_nodup (l : List UserDB) (k : Nat)
    (hnd : (l.map (fun u => u.id)).Nodup) :
    (l.eraseP (fun u => u.id == k)).find? (fun u => u.id == k) = none := by
  induction l with
  | nil => simp
  | cons a l ih =>
      rw [List.map_cons, List.nodup_cons] at hnd
      by_cases ha : (a.id == k) = true
      · rw [@List.eraseP_cons_of_pos UserDB a l (fun u => u.id == k) ha, List.find?_eq_none]
        intro x hx
        have hak : a.id = k := by simpa using ha
        have hne : x.id ≠ k := by
          rw [← hak]
          intro hxe
          exact hnd.1 (by rw [← hxe]; exact List.mem_map_of_mem _ hx)
        simp [hne]
      · rw [@List.eraseP_cons_of_neg UserDB a l (fun u => u.id == k) ha]
        rw [@List.find?_cons_of_neg UserDB (fun u => u.id == k) a _ ha]
        exact ih hnd.2

lemma length_eraseP_of_find? (l : List UserDB) (q : UserDB → Bool) (u : UserDB)
    (h : l.find? q = some u) : (l.eraseP q).length + 1 = l.length := by
  induction l with
  | nil => simp at h
  | cons a l ih =>
      by_cases ha : q a = true
      · rw [List.eraseP_cons_of_pos ha]
        rfl
      · rw [List.find?_cons_of_neg _ ha] at h
        rw [List.eraseP_cons_of_neg ha]
        simp only [List.length_cons]
        rw [ih h]

/-- C6: deleting an existing id answers the confirmation message
"User deleted successfully" and removes exactly that row: afterwards Get on
the id answers 404 "User not found", a second Delete on the same id also
answers 404, and the row count went down by one. -/
theorem delete_then_get (db : DB) (user_id : Nat) (u : UserDB) (hwf : db.WF)
    (hfound : (read_user user_id db).1 = Except.ok u) :
    (delete_user user_id db).1 = Except.ok "User deleted successfully" ∧
    (read_user user_id ((delete_user user_id db).2)).1 =
      Except.error ⟨404, "User not found"⟩ ∧
    (delete_user user_id ((delete_user user_id db).2)).1 =
      Except.error ⟨404, "User not found"⟩ ∧
    ((delete_user user_id db).2).users.length + 1 = db.users.length := by
  have hf : db.users.find? (fun x => x.id == user_id) = some u := by
    cases hfind : db.users.find? (fun x => x.id == user_id) with
    | none => simp [read_user, hfind] at hfound
    | some w =>
        simp only [read_user, hfind, Except.ok.injEq] at hfound
        rw [hfound]
  have hsnd : (delete_user user_id db).2 =
      ⟨db.users.eraseP (fun x => x.id == user_id), db.nextId⟩ := by
    simp [delete_user, hf]
  have hnone := find?_eraseP_of_nodup db.users user_id hwf.1
  refine ⟨?_, ?_, ?_, ?_⟩
  · simp [delete_user, hf]
  · rw [hsnd]
    simp [read_user, hnone]
  · rw [hsnd]
    simp [delete_user, hnone]
  · rw [hsnd]
    exact length_eraseP_of_find? db.users _ u hf

/-- C6 witness: deleting the only row of `db1` confirms, then Get and a
second Delete on id 1 both answer 404, and the store has one row fewer. -/
theorem delete_then_get_witness :
    (delete_user 1 db1).1 = Except.ok "User deleted successfully" ∧
    (read_user 1 ((delete_user 1 db1).2)).1 = Except.error ⟨404, "User not found"⟩ ∧
    (delete_user 1 ((delete_user 1 db1).2)).1 = Except.error ⟨404, "User not found"⟩ ∧
    ((delete_user 1 db1).2).users.length + 1 = db1.users.length :=
  delete_then_get db1 1 ⟨1, "Ann", "a@x.com", "ann1", "p"⟩ (by decide) rfl

/-- C8: a successful Update(id) touches only the row with that id: the row
count is unchanged and every position holding a row with a different id
holds exactly the same row afterwards, field for field. -/
theorem update_frame (db : DB) (user_id : Nat) (p : UserCreate) (v : UserDB)
    (hok : (update_user user_id p db).1 = Except.ok v) :
    ((update_user user_id p db).2).users.length = db.users.length ∧
    ∀ (i : Nat) (u : UserDB), db.users[i]? = some u → u.id ≠ user_id →
      ((update_user user_id p db).2).users[i]? = some u := by
  cases hfind : db.users.find? (fun x => x.id == user_id) with
  | none => simp [update_user, hfind] at hok
  | some w =>
      cases hcu : updateConflict db user_id p with
      | true => simp [update_user, hfind, hcu] at hok
      | false =>
          have hsnd : (update_user user_id p db).2 =
              ⟨db.users.map (fun x => if x.id == user_id then updatedRow p x else x),
               db.nextId⟩ := by
            simp [update_user, hfind, hcu]
          rw [hsnd]
          constructor
          · simp
          · intro i u hi hne
            have hb : (u.id == user_id) = false := by simpa using hne
            simp [List.getElem?_map, hi, hb]
            exact fun h => absurd h hne

/-- C8 witness: updating id 2 of `db2` with `pCy` keeps the row count and
leaves the row `cAnn` at position 0 untouched. -/
theorem update_frame_witness :
    ((update_user 2 pCy db2).2).users.length = db2.users.length ∧
    ((update_user 2 pCy db2).2).users[0]? = some cAnn :=
  ⟨(update_frame db2 2 pCy (updatedRow pCy cBob) rfl).1,
   (update_frame db2 2 pCy (updatedRow pCy cBob) rfl).2 0 cAnn rfl (by decide)⟩
